import Mathlib

/-!
Verification development for the ApoloTrading decision pipeline.

Shallow embedding of the core components into Lean 4:
* `src/infrastructure/event_bus.py` — publish/subscribe dispatcher with
  failure containment;
* `src/risk/manager.py` — the risk gate `on_signal`, position sizing
  `_calculate_position_size`, and the account-state writer
  `update_account_state`;
* `src/domain/portfolio.py` — the ledger's account-state writer;
* `src/infrastructure/execution.py` — simulated (PAPER) fills;
* `src/domain/greeks.py` — Black-Scholes-Merton pricing;
* `src/strategies/options_strategies.py` and `src/core/strategy_engine.py`
  — strategy evaluation and option-chain row selection.

Python floats are modelled as `ℚ` where the code only does field arithmetic
and comparisons, and as `ℝ` in the pricing module where `exp`, `log` and the
normal CDF appear.  The file is organised as all definitions first, then all
lemmas and theorems.
-/

namespace Apolo

/-! ## Definitions: event bus (`src/infrastructure/event_bus.py`) -/

/-- The `EventType` enum of the source. -/
inductive EventType where
  | MARKET_DATA
  | SIGNAL
  | ORDER_REQUEST
  | ORDER_FILL
  | RISK_CHECK
  | SYSTEM_STATUS
  | ERROR
deriving DecidableEq, Repr

/-- Payload of the Error event built by `EventBus.publish` on a handler
exception: `{"message": str(e), "origin": handler.__name__}`. -/
structure ErrorPayload where
  message : String
  origin : String
deriving DecidableEq, Repr

/-- An event as dispatched by the bus.  For the containment claim only the
`type` matters; `data` stands for the payload dict (type parameter `α`). -/
structure BusEvent (α : Type) where
  type : EventType
  data : α

/-- A subscriber: its `__name__` and the outcome of calling it on an event —
`Except.error m` models the handler raising an exception with message `m`,
`Except.ok ()` a normal return.  The handler body is abstracted to this
outcome; what the handler itself publishes is outside the bus's containment
logic being verified here. -/
structure Handler (α : Type) where
  name : String
  run : BusEvent α → Except String Unit

/-- Observable trace of one `publish` call: which handlers were invoked (with
the type of the event they were handed, in invocation order), and which
Error-event payloads the bus published. -/
structure BusTrace where
  handled : List (String × EventType)
  errors : List ErrorPayload
deriving DecidableEq, Repr

/-- The loop body of `EventBus.publish` for a non-Error event: each handler of
the event's type is tried in registration order; a raising handler is logged,
an Error event `{message, origin}` is built and — since the current event is
not of type ERROR — published, which synchronously invokes every handler
registered for `EventType.ERROR` (whose own exceptions are caught and, the
recursion guard `event.type != EventType.ERROR` now failing, produce no
further Error event). -/
def runMainHandlers {α : Type} (errorSubs : List (Handler α)) (e : BusEvent α) :
    List (Handler α) → BusTrace
  | [] => ⟨[], []⟩
  | h :: rest =>
    let tr := runMainHandlers errorSubs e rest
    match h.run e with
    | Except.ok _ => ⟨(h.name, e.type) :: tr.handled, tr.errors⟩
    | Except.error m =>
      ⟨(h.name, e.type) ::
          (errorSubs.map (fun hh => (hh.name, EventType.ERROR)) ++ tr.handled),
        ⟨m, h.name⟩ :: tr.errors⟩

/-- `EventBus.publish`.  `subs` is the `_subscribers` map (`defaultdict(list)`:
a type with no registrations maps to `[]`).  Publishing an ERROR event runs
its handlers and catches their exceptions, but the guard
`if event.type != EventType.ERROR` prevents any recursive Error publish. -/
def publish {α : Type} (subs : EventType → List (Handler α)) (e : BusEvent α) :
    BusTrace :=
  if e.type = EventType.ERROR then
    ⟨(subs EventType.ERROR).map (fun h => (h.name, EventType.ERROR)), []⟩
  else
    runMainHandlers (subs EventType.ERROR) e (subs e.type)

/-- A MarketData subscriber that always raises. -/
def demoFailingHandler : Handler Unit :=
  ⟨"failing_handler", fun _ => Except.error "boom"⟩

/-- A second, independently registered MarketData subscriber that succeeds. -/
def demoSecondHandler : Handler Unit :=
  ⟨"second_handler", fun _ => Except.ok ()⟩

/-- An Error subscriber that itself raises while handling the Error event. -/
def demoErrorHandler : Handler Unit :=
  ⟨"error_handler", fun _ => Except.error "error handler also fails"⟩

/-- Concrete subscription table: two MarketData handlers (the first raising)
and one raising Error handler. -/
def demoSubs : EventType → List (Handler Unit)
  | EventType.MARKET_DATA => [demoFailingHandler, demoSecondHandler]
  | EventType.ERROR => [demoErrorHandler]
  | _ => []

/-! ## Definitions: risk gate (`src/risk/manager.py`, `src/domain/portfolio.py`) -/

/-- The `RiskState` enum of `src/infrastructure/database/models.py`. -/
inductive RiskState where
  | NORMAL
  | DEFENSIVE
  | HALT
deriving DecidableEq, Repr

/-- An `AccountState` row with exactly the columns the mapped class defines
(models.py:81-92): equity, balance, risk_state, drawdown_pct and
daily_trades_count (besides ids and timestamp).  The class has **no**
`daily_pnl`, `weekly_pnl` or `consecutive_losses` columns, although
`RiskManager` reads and writes those names; see the raising accessors
below.  `daily_trades_count` is `Option` because a transient row never
flushed to the database reads the attribute as `None`. -/
structure AccountState where
  equity : ℚ
  balance : ℚ
  risk_state : RiskState
  drawdown_pct : ℚ
  daily_trades_count : Option ℤ
deriving DecidableEq, Repr

/-- `state.daily_pnl` on an `AccountState` instance: the mapped class
defines no such column or attribute, so the lookup raises
`AttributeError` (this is what `manager.py:76` and `manager.py:132` hit). -/
def AccountState.daily_pnl_attr (_ : AccountState) : Except String ℚ :=
  Except.error "AttributeError: daily_pnl"

/-- `state.weekly_pnl`: no such column on the mapped class; raises. -/
def AccountState.weekly_pnl_attr (_ : AccountState) : Except String ℚ :=
  Except.error "AttributeError: weekly_pnl"

/-- `state.consecutive_losses`: no such column on the mapped class; raises. -/
def AccountState.consecutive_losses_attr (_ : AccountState) : Except String ℤ :=
  Except.error "AttributeError: consecutive_losses"

/-- One leg of an options signal: `{"side": ..., "type": ..., "strike": ...}`
as built by the strategy evaluators. -/
structure LegSpec where
  side : String
  optionType : String
  strike : ℚ
deriving DecidableEq, Repr

/-- The signal payload dict as consumed by `RiskManager.on_signal`: each field
is `Option` because Python `dict.get` returns `None` for a missing key. -/
structure SignalData where
  id : Option ℤ
  symbol : Option String
  strategy : Option String
  side : Option String
  legs : Option (List LegSpec)
  limit_price : Option ℚ
  risk_per_unit : Option ℚ
deriving DecidableEq, Repr

/-- The `ORDER_REQUEST` payload dict as built by `RiskManager.on_signal`. -/
structure OrderRequestData where
  signal_id : Option ℤ
  symbol : Option String
  strategy : Option String
  side : Option String
  quantity : ℤ
  order_type : String
  price : Option ℚ
  legs : Option (List LegSpec)
deriving DecidableEq, Repr

/-- Python `int()` applied to a rational: truncation toward zero. -/
def pyTrunc (q : ℚ) : ℤ :=
  if 0 ≤ q then ⌊q⌋ else ⌈q⌉

/-- `RiskManager.max_drawdown_limit` (8% hard stop). -/
def max_drawdown_limit : ℚ := 8 / 100

/-- `RiskManager.daily_max_loss_pct` (2%). -/
def daily_max_loss_pct : ℚ := 2 / 100

/-- `RiskManager.weekly_max_loss_pct` (5%). -/
def weekly_max_loss_pct : ℚ := 5 / 100

/-- `RiskManager.max_consecutive_losses`. -/
def max_consecutive_losses : ℤ := 3

/-- `RiskManager.daily_max_trades`. -/
def daily_max_trades : ℤ := 3

/-- `RiskManager._calculate_position_size`: 0 in HALT; otherwise 2% of equity
at risk in NORMAL and 1% in DEFENSIVE, divided by the signal's
`risk_per_unit` (default `100.0` when the key is absent, hard 0 when it is
not positive) and truncated by Python `int()`.  The source returns the count
as a float; only its sign and value matter, so the embedding returns `ℤ`. -/
def calculate_position_size (signal_data : SignalData) (state : AccountState) : ℤ :=
  if state.risk_state = RiskState.HALT then 0
  else if signal_data.risk_per_unit.getD 100 ≤ 0 then 0
  else pyTrunc (state.equity
      * (if state.risk_state = RiskState.NORMAL then 2 / 100 else 1 / 100)
      / signal_data.risk_per_unit.getD 100)

/-- `RiskManager._get_current_risk_state`: returns the latest stored row; on
an empty table it would synthesize an initial state via
`AccountState(..., daily_pnl=0.0, weekly_pnl=0.0, consecutive_losses=0)`
(manager.py:34-42) — keyword arguments the mapped class does not define, so
the declarative constructor raises `TypeError` instead. -/
def get_current_risk_state (db_latest : Option AccountState) :
    Except String AccountState :=
  match db_latest with
  | some state => Except.ok state
  | none => Except.error "TypeError: invalid keyword argument for AccountState"

/-- `RiskManager.on_signal` on the current account state.  `Except.ok none`
models a logged rejection with no event emitted, `Except.ok (some order)`
the publication of the `ORDER_REQUEST` event, and `Except.error` the handler
raising.  The drawdown check reads the existing `drawdown_pct` column; the
next check (manager.py:76) reads `state.daily_pnl`, an attribute the
`AccountState` class does not have, so every signal that survives the
drawdown check raises there and the remaining checks, the sizing and the
publication are dead code. -/
def on_signal (signal : SignalData) (state : AccountState) :
    Except String (Option OrderRequestData) :=
  if state.drawdown_pct > max_drawdown_limit then Except.ok none
  else
    state.daily_pnl_attr.bind fun daily_pnl =>
    if daily_pnl < -(state.equity * daily_max_loss_pct) then Except.ok none
    else
      state.weekly_pnl_attr.bind fun weekly_pnl =>
      if weekly_pnl < -(state.equity * weekly_max_loss_pct) then Except.ok none
      else
        state.consecutive_losses_attr.bind fun con_losses =>
        if con_losses ≥ max_consecutive_losses then Except.ok none
        else if state.daily_trades_count.getD 0 ≥ daily_max_trades then Except.ok none
        else if calculate_position_size signal state ≤ 0 then Except.ok none
        else Except.ok (some
          { signal_id := signal.id
            symbol := signal.symbol
            strategy := signal.strategy
            side := signal.side
            quantity := calculate_position_size signal state
            order_type := "LIMIT"
            price := signal.limit_price
            legs := signal.legs })

/-- The risk-state classification written by `RiskManager.update_account_state`
(`new_state = NORMAL; if dd > 0.04: DEFENSIVE; if dd > 0.08: HALT`), which is
literally the same statement sequence as in `PortfolioManager.on_fill`. -/
def classify_risk_state (dd : ℚ) : RiskState :=
  let s0 := RiskState.NORMAL
  let s1 := if dd > 4 / 100 then RiskState.DEFENSIVE else s0
  if dd > 8 / 100 then RiskState.HALT else s1

/-- `RiskManager.update_account_state`: loads the latest row (raising
`TypeError` on an empty table, manager.py:34-42), computes the drawdown and
the intended new risk state (manager.py:124-129, pure), then reads
`latest.daily_pnl` at manager.py:132 — an attribute the `AccountState` class
does not have — so every call raises and no snapshot is ever appended.  The
constructor at manager.py:143-151 would itself raise `TypeError` (invalid
keyword arguments `daily_pnl`, `weekly_pnl`, `consecutive_losses`) were it
reached. -/
def update_account_state (db_latest : Option AccountState) (current_equity : ℚ)
    (_pnl_change : ℚ) : Except String AccountState :=
  (get_current_risk_state db_latest).bind fun latest =>
    let hwm : ℚ := 100000
    let dd := (hwm - current_equity) / hwm
    let _new_state := classify_risk_state dd
    latest.daily_pnl_attr.bind fun _daily_pnl =>
    latest.weekly_pnl_attr.bind fun _weekly_pnl =>
    latest.consecutive_losses_attr.bind fun _con_losses =>
    Except.error "TypeError: invalid keyword argument for AccountState"

/-- The `AccountState` row that `PortfolioManager.on_fill` would append
(portfolio.py:44-74): equity moved by the random `pnl_change` (a parameter
here), drawdown clamped at 0 above the simplified high-water mark, risk
state from the shared threshold sequence, trade count incremented.  In the
program this code is dead — `on_fill` raises before reaching it, see
`portfolio_on_fill`. -/
def portfolio_on_fill_state (last_state : Option AccountState)
    (pnl_change : ℚ) : AccountState :=
  let current_equity := match last_state with
    | some s => s.equity
    | none => 100000
  let new_equity := current_equity + pnl_change
  let hwm : ℚ := 100000
  let dd := if new_equity < hwm then (hwm - new_equity) / hwm else 0
  let risk_state := classify_risk_state dd
  { equity := new_equity
    balance := new_equity
    risk_state := risk_state
    drawdown_pct := dd
    daily_trades_count := some (match last_state with
      | some s => s.daily_trades_count.getD 0 + 1
      | none => 1) }

/-- The spec's pure risk-state function of the drawdown, modelled from the
spec wording: NORMAL if `drawdownPct ≤ 4%`, DEFENSIVE if `4% < drawdownPct
≤ 8%`, HALT if `drawdownPct > 8%`. -/
def specRiskStateOf (dd : ℚ) : RiskState :=
  if dd ≤ 4 / 100 then RiskState.NORMAL
  else if dd ≤ 8 / 100 then RiskState.DEFENSIVE
  else RiskState.HALT

/-! ## Definitions: execution stage (`src/infrastructure/execution.py`) -/

/-- The `ORDER_REQUEST` payload dict as read by
`ExecutionEngine._execute_paper` (keys it accesses). -/
structure OrderReqPayload where
  signal_id : Option ℤ
  symbol : String
  quantity : ℤ
  price : Option ℚ
deriving DecidableEq, Repr

/-- The `ORDER_FILL` payload dict built by `ExecutionEngine._execute_paper`.
Timestamps are abstract (`Option τ`): the only fact used about them is
whether the value is `None`. -/
structure FillPayload (τ : Type) where
  order_id : String
  signal_id : Option ℤ
  symbol : String
  filled_quantity : ℤ
  fill_price : Option ℚ
  commission : ℚ
  timestamp : Option τ

/-- `ExecutionEngine._execute_paper`: publishes the list of fill events for
one order request (`order_id` is the synthesized `uuid4` string).  The
timestamp field is `"timestamp": event.timestamp if 'event' in locals() else
None`; `event` is a parameter of `on_order_request`, not a local of
`_execute_paper` (whose locals are `self`, `order_req`, `order_id`), so the
guard is statically false and the field is always `None`. -/
def execute_paper (τ : Type) (order_id : String) (order_req : OrderReqPayload) :
    List (FillPayload τ) :=
  [{ order_id := order_id
     signal_id := order_req.signal_id
     symbol := order_req.symbol
     filled_quantity := order_req.quantity
     fill_price := order_req.price
     commission := (105 / 100 : ℚ) * (order_req.quantity : ℚ)
     timestamp := none }]

/-- `PortfolioManager.on_fill`'s trade entry time:
`entry_time = data['timestamp'] or datetime.utcnow()`.  A datetime is always
truthy in Python, so `None` (and only `None`) falls through to the current
clock `now`. -/
def portfolio_entry_time {τ : Type} (fill_timestamp : Option τ) (now : τ) : τ :=
  match fill_timestamp with
  | some t => t
  | none => now

/-- `data['quantity']` on a fill payload: the dict built by `_execute_paper`
carries `filled_quantity` but no `quantity` key, so the lookup at
portfolio.py:38 raises `KeyError`. -/
def FillPayload.quantity_key {τ : Type} (_ : FillPayload τ) : Except String ℤ :=
  Except.error "KeyError: quantity"

/-- `PortfolioManager.on_fill`: evaluates the `Trade` constructor arguments
left to right — `data['symbol']`, `data['timestamp'] or utcnow()`,
`data['fill_price']` succeed, then `data['quantity']` (portfolio.py:38)
raises `KeyError` on every fill the paper execution path produces, so the
Trade insert and the `AccountState` append (`portfolio_on_fill_state`) below
are never reached. -/
def portfolio_on_fill (τ : Type) (data : FillPayload τ) (now : τ)
    (last_state : Option AccountState) (pnl_change : ℚ) :
    Except String AccountState :=
  let _entry_time := portfolio_entry_time data.timestamp now
  (FillPayload.quantity_key data).bind fun _quantity =>
    Except.ok (portfolio_on_fill_state last_state pnl_change)

/-- A concrete order request with `quantity = 5` and limit price 1.50. -/
def demoOrderReq : OrderReqPayload :=
  { signal_id := some 7
    symbol := "SPY"
    quantity := 5
    price := some (3 / 2) }

/-- A concrete account state with `drawdown_pct = 0.09` and every other gate
input healthy. -/
def demoHaltDrawdownState : AccountState :=
  { equity := 100000
    balance := 100000
    risk_state := RiskState.HALT
    drawdown_pct := 9 / 100
    daily_trades_count := some 0 }

/-- A concrete NORMAL account state with equity 100000 and no drawdown. -/
def demoNormalState : AccountState :=
  { equity := 100000
    balance := 100000
    risk_state := RiskState.NORMAL
    drawdown_pct := 0
    daily_trades_count := some 0 }

/-- A concrete well-formed signal with `risk_per_unit = 1000`. -/
def demoSignal : SignalData :=
  { id := some 7
    symbol := some "SPY"
    strategy := some "BULL_PUT_SPREAD"
    side := some "SELL"
    legs := some [⟨"SELL", "PUT", 427⟩, ⟨"BUY", "PUT", 405⟩]
    limit_price := some (3 / 2)
    risk_per_unit := some 1000 }

/-- `demoSignal` with the `risk_per_unit` key missing from the payload. -/
def demoSignalNoRisk : SignalData :=
  { demoSignal with risk_per_unit := none }

/-- `demoSignal` with the default risk of 100.0 per contract made explicit. -/
def demoSignalDefaultRisk : SignalData :=
  { demoSignal with risk_per_unit := some 100 }

/-- `demoSignal` with a non-positive `risk_per_unit`. -/
def demoSignalNonposRisk : SignalData :=
  { demoSignal with risk_per_unit := some (-5) }

/-! ## Definitions: strategies (`src/strategies/options_strategies.py`,
`src/core/strategy_engine.py`) -/

/-- One row of an option-chain DataFrame: the columns the engine reads. -/
structure ChainRow where
  strike : ℚ
  lastPrice : ℚ
deriving DecidableEq, Repr

/-- The option-chain snapshot returned by the market-data client:
`{'expiration': ..., 'calls': ..., 'puts': ...}`. -/
structure OptionChain where
  expiration : String
  calls : List ChainRow
  puts : List ChainRow
deriving DecidableEq, Repr

/-- The MarketData payload dict as consumed by the strategy evaluators.  The
evaluators read only `price` and `iv_rank` (the latter with `.get` default
0); the `chain` field models any option-chain data additionally present in
the payload. -/
structure MarketPayload where
  symbol : Option String
  price : ℚ
  iv_rank : Option ℚ
  chain : Option OptionChain
deriving DecidableEq, Repr

/-- `BullPutSpreadStrategy.evaluate`: requires `iv_rank ≥ 30`, then emits a
signal with proxy strikes `price·0.95` (short put) and `price·0.90` (long
put), mock credit 1.50, and `risk_per_unit = (width − credit)·100`.  The
option-chain data in the payload is never consulted. -/
def bull_put_spread_evaluate (data : MarketPayload) : Option SignalData :=
  if data.iv_rank.getD 0 < 30 then none
  else some
    { id := none
      symbol := data.symbol
      strategy := some "BULL_PUT_SPREAD"
      side := some "SELL"
      legs := some
        [⟨"SELL", "PUT", data.price * (95 / 100)⟩,
         ⟨"BUY", "PUT", data.price * (90 / 100)⟩]
      limit_price := some (3 / 2)
      risk_per_unit :=
        some ((data.price * (95 / 100) - data.price * (90 / 100) - 3 / 2) * 100) }

/-- The row selection of `StrategyEngine.analyze_market`:
`options_df['diff'] = abs(strike - target); sort_values('diff'); iloc[0]` —
the row of minimal absolute strike distance, the earliest such row on ties.
Implemented as a first-wins running minimum, which equals the head of a
stable sort by `diff`. -/
def select_nearest (target : ℚ) : List ChainRow → Option ChainRow
  | [] => none
  | r :: rs =>
    match select_nearest target rs with
    | none => some r
    | some best =>
      if |best.strike - target| < |r.strike - target| then some best else some r

/-- The `StrategyType` enum of `models.py:20-23` — its only members.  There
is no `CASH_SECURED_PUT` member, although `strategy_engine.py` references
`StrategyType.CASH_SECURED_PUT` in its class body (line 15), in
`analyze_market`'s dispatch (line 50) and in the fallback
`_analyze_market_simulation` (line 127), so that module raises
`AttributeError` at import time and its chain-selection and fallback code is
unreachable. -/
inductive StrategyType where
  | BULL_PUT_SPREAD
  | BEAR_CALL_SPREAD
  | IRON_CONDOR
deriving DecidableEq, Repr

/-- A one-row put chain whose single strike 100 is nearest every target. -/
def c7ChainPuts : List ChainRow := [⟨100, 1⟩]

/-- A chain snapshot holding only `c7ChainPuts`. -/
def c7Chain : OptionChain := ⟨"2026-01-16", [], c7ChainPuts⟩

/-- A chain snapshot with no candidate rows at all. -/
def c7EmptyChain : OptionChain := ⟨"2026-01-16", [], []⟩

/-- A MarketData payload at price 200 and IV rank 50 that carries the
one-row chain. -/
def c7Payload : MarketPayload :=
  { symbol := some "SPY"
    price := 200
    iv_rank := some 50
    chain := some c7Chain }

/-! ## Definitions: pricing module (`src/domain/greeks.py`) -/

/-- Density of the standard normal distribution (`scipy.stats.norm.pdf`). -/
noncomputable def normPdf (x : ℝ) : ℝ :=
  Real.exp (-(x ^ 2) / 2) / Real.sqrt (2 * Real.pi)

/-- Cumulative distribution function of the standard normal distribution
(`scipy.stats.norm.cdf`). -/
noncomputable def normCdf (x : ℝ) : ℝ :=
  ∫ t in Set.Iic x, normPdf t

/-- The `OptionGreeks` dataclass. -/
structure OptionGreeks where
  delta : ℝ
  gamma : ℝ
  theta : ℝ
  vega : ℝ
  rho : ℝ
  theoretical_price : ℝ
  iv : ℝ

/-- `OptionPricingModel.calculate_greeks`: intrinsic value with zero Greeks
when `T ≤ 0`, otherwise the Black-Scholes-Merton closed form, with theta
returned daily (divided by 365) and vega per vol point (divided by 100). -/
noncomputable def calculate_greeks (S K T r sigma : ℝ) (option_type : String) :
    OptionGreeks :=
  if T ≤ 0 then
    { delta := 0, gamma := 0, theta := 0, vega := 0, rho := 0
      theoretical_price := if option_type = "call" then max 0 (S - K) else max 0 (K - S)
      iv := sigma }
  else
    let d1 := (Real.log (S / K) + (r + (1 / 2) * sigma ^ 2) * T) / (sigma * Real.sqrt T)
    let d2 := d1 - sigma * Real.sqrt T
    let gamma := normPdf d1 / (S * sigma * Real.sqrt T)
    let vega := S * normPdf d1 * Real.sqrt T
    if option_type = "call" then
      { delta := normCdf d1
        gamma := gamma
        theta := (-(S * normPdf d1 * sigma) / (2 * Real.sqrt T)
          - r * K * Real.exp (-r * T) * normCdf d2) / 365
        vega := vega / 100
        rho := K * T * Real.exp (-r * T) * normCdf d2
        theoretical_price := S * normCdf d1 - K * Real.exp (-r * T) * normCdf d2
        iv := sigma }
    else
      { delta := normCdf d1 - 1
        gamma := gamma
        theta := (-(S * normPdf d1 * sigma) / (2 * Real.sqrt T)
          + r * K * Real.exp (-r * T) * normCdf (-d2)) / 365
        vega := vega / 100
        rho := -K * T * Real.exp (-r * T) * normCdf (-d2)
        theoretical_price := K * Real.exp (-r * T) * normCdf (-d2) - S * normCdf (-d1)
        iv := sigma }

/-! ## Lemmas and theorems -/

lemma normPdf_even (x : ℝ) : normPdf (-x) = normPdf x := by
  unfold normPdf
  rw [neg_sq]

lemma normPdf_integrable : MeasureTheory.Integrable normPdf := by
  have h := integrable_exp_neg_mul_sq (by norm_num : (0 : ℝ) < 1 / 2)
  have heq : normPdf = fun x : ℝ =>
      Real.exp (-(1 / 2) * x ^ 2) * (Real.sqrt (2 * Real.pi))⁻¹ := by
    funext x
    unfold normPdf
    rw [div_eq_mul_inv]
    congr 2
    ring
  rw [heq]
  exact h.mul_const _

lemma integral_normPdf : ∫ x, normPdf x = 1 := by
  have heq : normPdf = fun x : ℝ =>
      Real.exp (-(1 / 2) * x ^ 2) * (Real.sqrt (2 * Real.pi))⁻¹ := by
    funext x
    unfold normPdf
    rw [div_eq_mul_inv]
    congr 2
    ring
  rw [heq, MeasureTheory.integral_mul_right, integral_gaussian]
  have h2 : Real.pi / (1 / 2) = 2 * Real.pi := by ring
  rw [h2]
  exact mul_inv_cancel₀ (Real.sqrt_ne_zero'.mpr (by positivity))

lemma normCdf_add_neg (x : ℝ) : normCdf x + normCdf (-x) = 1 := by
  have h2 : normCdf (-x) = ∫ t in Set.Ioi x, normPdf t := by
    unfold normCdf
    calc ∫ t in Set.Iic (-x), normPdf t
        = ∫ t in Set.Iic (-x), normPdf (-t) := by
          refine MeasureTheory.integral_congr_ae (Filter.Eventually.of_forall fun t => ?_)
          show normPdf t = normPdf (-t)
          rw [normPdf_even]
      _ = ∫ t in Set.Ioi x, normPdf t := by
          have h := integral_comp_neg_Iic (-x) normPdf
          simpa using h
  have h3 := MeasureTheory.integral_add_compl measurableSet_Iic normPdf_integrable
    (f := normPdf) (s := Set.Iic x)
  rw [Set.compl_Iic] at h3
  rw [h2]
  unfold normCdf
  rw [h3]
  exact integral_normPdf

/-- C5: for any input with `timeToExpiryYears ≤ 0`, `calculate_greeks`
returns the intrinsic value as the theoretical price (`max 0 (S-K)` for
calls, `max 0 (K-S)` otherwise), all Greeks zero, and `iv` echoing the input
volatility. -/
theorem c5_expired_option_intrinsic_value (S K T r sigma : ℝ) (option_type : String)
    (hT : T ≤ 0) :
    calculate_greeks S K T r sigma option_type
      = { delta := 0, gamma := 0, theta := 0, vega := 0, rho := 0
          theoretical_price :=
            if option_type = "call" then max 0 (S - K) else max 0 (K - S)
          iv := sigma } := by
  unfold calculate_greeks
  rw [if_pos hT]

/-- C5 witness: an expired call at spot 5, strike 3 is worth its intrinsic
value 2 with all Greeks zero. -/
theorem c5_expired_option_intrinsic_value_witness :
    (0 : ℝ) ≤ 0
    ∧ calculate_greeks 5 3 0 (1 / 100) (4 / 10) "call"
      = { delta := 0, gamma := 0, theta := 0, vega := 0, rho := 0
          theoretical_price := if "call" = "call" then max 0 ((5 : ℝ) - 3) else max 0 (3 - 5)
          iv := 4 / 10 } :=
  ⟨le_refl 0, c5_expired_option_intrinsic_value 5 3 0 (1 / 100) (4 / 10) "call" (le_refl 0)⟩

/-- C6: put-call parity.  For positive spot, strike, time to expiry and
volatility, the call and put theoretical prices produced by
`calculate_greeks` at the same inputs satisfy
`callPrice - putPrice = S - K·exp(-rT)` exactly (hence within any floating
tolerance). -/
theorem c6_put_call_parity (S K T r sigma : ℝ)
    (hS : 0 < S) (hK : 0 < K) (hT : 0 < T) (hsigma : 0 < sigma) :
    (calculate_greeks S K T r sigma "call").theoretical_price
      - (calculate_greeks S K T r sigma "put").theoretical_price
      = S - K * Real.exp (-r * T) := by
  unfold calculate_greeks
  rw [if_neg (not_le.mpr hT), if_neg (not_le.mpr hT)]
  rw [if_pos rfl, if_neg (by decide : ¬ ("put" : String) = "call")]
  set d1 := (Real.log (S / K) + (r + (1 / 2) * sigma ^ 2) * T) / (sigma * Real.sqrt T) with hd1
  set d2 := d1 - sigma * Real.sqrt T with hd2
  have h1 := normCdf_add_neg d1
  have h2 := normCdf_add_neg d2
  simp only
  linear_combination S * h1 - K * Real.exp (-r * T) * h2

/-- C6 witness: parity instantiated at S=100, K=90, T=1, r=0.05, σ=0.2. -/
theorem c6_put_call_parity_witness :
    (0 : ℝ) < 100 ∧ (0 : ℝ) < 90 ∧ (0 : ℝ) < 1 ∧ (0 : ℝ) < 2 / 10
    ∧ (calculate_greeks 100 90 1 (5 / 100) (2 / 10) "call").theoretical_price
        - (calculate_greeks 100 90 1 (5 / 100) (2 / 10) "put").theoretical_price
        = 100 - 90 * Real.exp (-(5 / 100) * 1) :=
  ⟨by norm_num, by norm_num, by norm_num, by norm_num,
   c6_put_call_parity 100 90 1 (5 / 100) (2 / 10)
     (by norm_num) (by norm_num) (by norm_num) (by norm_num)⟩

/-- Invoked main handlers, restricted to the published event's own type:
every registered handler of that type is invoked, in registration order,
whether or not earlier handlers raised. -/
lemma runMainHandlers_handled_filter {α : Type} (errorSubs : List (Handler α))
    (e : BusEvent α) (hne : e.type ≠ EventType.ERROR) (hs : List (Handler α)) :
    ((runMainHandlers errorSubs e hs).handled.filter
        (fun p => decide (p.2 = e.type))).map Prod.fst = hs.map Handler.name := by
  induction hs with
  | nil => rfl
  | cons h rest ih =>
    simp only [runMainHandlers]
    cases h.run e with
    | ok _ =>
      simp only [List.filter_cons, decide_eq_true_eq]
      rw [if_pos trivial]
      simp [ih]
    | error m =>
      simp only [List.filter_cons, decide_eq_true_eq]
      rw [if_pos trivial]
      simp only [List.filter_append, List.map_cons, List.map_append]
      have herr : (errorSubs.map (fun hh => (hh.name, EventType.ERROR))).filter
          (fun p => decide (p.2 = e.type)) = [] := by
        rw [List.filter_eq_nil_iff]
        intro p hp
        simp only [List.mem_map] at hp
        obtain ⟨hh, _, rfl⟩ := hp
        simpa using fun hcontra => hne hcontra.symm
      rw [herr]
      simp [ih]

/-- Published Error payloads: exactly one per raising handler, carrying that
handler's exception message and name. -/
lemma runMainHandlers_errors {α : Type} (errorSubs : List (Handler α))
    (e : BusEvent α) (hs : List (Handler α)) :
    (runMainHandlers errorSubs e hs).errors = hs.filterMap (fun h =>
      match h.run e with
      | Except.ok _ => none
      | Except.error m => some ⟨m, h.name⟩) := by
  induction hs with
  | nil => rfl
  | cons h rest ih =>
    simp only [runMainHandlers, List.filterMap_cons]
    cases h.run e with
    | ok _ => simpa using ih
    | error m => simpa using ih

/-- C1: if a handler raises during `publish`, the bus catches the exception
(`publish` is a total function returning a trace), publishes exactly one
Error-kind event carrying the exception message and the originating handler's
name, and still invokes every remaining handler registered for the event's
kind; publishing an Error-kind event never publishes a further Error event,
so a handler that raises while handling an Error event produces none
(recursion guard). -/
theorem c1_bus_failure_containment {α : Type} (subs : EventType → List (Handler α))
    (e : BusEvent α) (hne : e.type ≠ EventType.ERROR) :
    ((publish subs e).handled.filter (fun p => decide (p.2 = e.type))).map Prod.fst
        = (subs e.type).map Handler.name
    ∧ (publish subs e).errors = (subs e.type).filterMap (fun h =>
        match h.run e with
        | Except.ok _ => none
        | Except.error m => some ⟨m, h.name⟩)
    ∧ (∀ e' : BusEvent α, e'.type = EventType.ERROR →
        (publish subs e').errors = []) := by
  refine ⟨?_, ?_, ?_⟩
  · rw [publish, if_neg hne]
    exact runMainHandlers_handled_filter (subs EventType.ERROR) e hne (subs e.type)
  · rw [publish, if_neg hne]
    exact runMainHandlers_errors (subs EventType.ERROR) e (subs e.type)
  · intro e' he'
    rw [publish, if_pos he']

/-- C1 witness: on a concrete MarketData event with a raising first handler,
both MarketData handlers run, exactly one Error payload is published, and an
Error event republished to the raising Error handler yields no further Error
payload. -/
theorem c1_bus_failure_containment_witness :
    (⟨EventType.MARKET_DATA, ()⟩ : BusEvent Unit).type ≠ EventType.ERROR
    ∧ ((publish demoSubs ⟨EventType.MARKET_DATA, ()⟩).handled.filter
          (fun p => decide (p.2 = (⟨EventType.MARKET_DATA, ()⟩ : BusEvent Unit).type))).map
        Prod.fst = (demoSubs EventType.MARKET_DATA).map Handler.name
    ∧ (publish demoSubs ⟨EventType.ERROR, ()⟩).errors = [] :=
  ⟨by decide,
   (c1_bus_failure_containment demoSubs ⟨EventType.MARKET_DATA, ()⟩ (by decide)).1,
   (c1_bus_failure_containment demoSubs ⟨EventType.MARKET_DATA, ()⟩ (by decide)).2.2
     ⟨EventType.ERROR, ()⟩ rfl⟩

lemma classify_eq_spec (dd : ℚ) : classify_risk_state dd = specRiskStateOf dd := by
  unfold classify_risk_state specRiskStateOf
  split_ifs <;> first | rfl | linarith

/-- C2 (code bug): neither writer ever appends an `AccountState` snapshot.
`update_account_state` raises on every call — `TypeError` from the invalid
keyword arguments of the initial-state constructor on an empty table, else
`AttributeError` reading `latest.daily_pnl` at manager.py:132 — and the fill
handler raises `KeyError` on `data['quantity']` (portfolio.py:38) before its
`AccountState` append; meanwhile the (dead) classification both writers
would use agrees with the spec's pure threshold function of the drawdown,
confirming the claim as the intent the code fails to implement. -/
theorem c2_code_bug_account_writers_crash :
    (∀ (db_latest : Option AccountState) (current_equity pnl_change : ℚ),
      ∃ msg, update_account_state db_latest current_equity pnl_change
        = Except.error msg)
    ∧ update_account_state (some demoNormalState) 95000 (-500)
        = Except.error "AttributeError: daily_pnl"
    ∧ update_account_state none 95000 (-500)
        = Except.error "TypeError: invalid keyword argument for AccountState"
    ∧ (∀ (τ : Type) (data : FillPayload τ) (now : τ)
        (last_state : Option AccountState) (pnl_change : ℚ),
      portfolio_on_fill τ data now last_state pnl_change
        = Except.error "KeyError: quantity")
    ∧ (∀ dd : ℚ, classify_risk_state dd = specRiskStateOf dd)
    ∧ (∀ (last_state : Option AccountState) (pnl_change : ℚ),
      (portfolio_on_fill_state last_state pnl_change).risk_state
        = specRiskStateOf (portfolio_on_fill_state last_state pnl_change).drawdown_pct) := by
  refine ⟨?_, rfl, rfl, fun τ data now last pc => rfl, classify_eq_spec, ?_⟩
  · intro db ce pc
    cases db with
    | none => exact ⟨_, rfl⟩
    | some latest => exact ⟨_, rfl⟩
  · intro last pc
    unfold portfolio_on_fill_state
    exact classify_eq_spec _

/-- Full run of the gate's signal handler: the drawdown breach is the only
reachable rejection; every other signal crashes at the `state.daily_pnl`
read of manager.py:76. -/
lemma on_signal_run (signal : SignalData) (state : AccountState) :
    on_signal signal state
      = if state.drawdown_pct > max_drawdown_limit then Except.ok none
        else Except.error "AttributeError: daily_pnl" := by
  unfold on_signal
  split_ifs <;> rfl

/-- C3 (code bug): of the five claimed admission rejections only the
drawdown breach is real — it cleanly rejects with no event (in particular
every signal at `drawdown_pct = 0.09` is rejected) — while every signal
passing the drawdown check makes the handler raise `AttributeError` at the
`state.daily_pnl` read (manager.py:76), so the dailyPnl, weeklyPnl,
consecutiveLosses and dailyTradesCount gates never produce the claimed
logged rejection. -/
theorem c3_code_bug_admission_checks_unreachable :
    (∀ (signal : SignalData) (state : AccountState),
      on_signal signal state
        = if state.drawdown_pct > max_drawdown_limit then Except.ok none
          else Except.error "AttributeError: daily_pnl")
    ∧ on_signal demoSignal demoHaltDrawdownState = Except.ok none
    ∧ on_signal demoSignal demoNormalState
        = Except.error "AttributeError: daily_pnl" := by
  refine ⟨on_signal_run, ?_, ?_⟩
  · rw [on_signal_run,
      if_pos (by norm_num [demoHaltDrawdownState, max_drawdown_limit] :
        demoHaltDrawdownState.drawdown_pct > max_drawdown_limit)]
  · rw [on_signal_run,
      if_neg (by norm_num [demoNormalState, max_drawdown_limit] :
        ¬ demoNormalState.drawdown_pct > max_drawdown_limit)]

/-- C4 (code bug): `_calculate_position_size` alone does compute the claimed
quantity — `int(100000·0.02/1000) = 2` in the NORMAL demo state with
`risk_per_unit = 1000` — but the gate can never publish an order request
carrying it: for every account state that passes the drawdown check the
handler raises `AttributeError` at `state.daily_pnl` (manager.py:76) before
the sizing step, so no `ORDER_REQUEST` event is ever emitted. -/
theorem c4_code_bug_sizing_unreachable :
    calculate_position_size demoSignal demoNormalState = 2
    ∧ (∀ (signal : SignalData) (state : AccountState),
      on_signal signal state
        = if state.drawdown_pct > max_drawdown_limit then Except.ok none
          else Except.error "AttributeError: daily_pnl")
    ∧ on_signal demoSignal demoNormalState
        = Except.error "AttributeError: daily_pnl" := by
  refine ⟨?_, on_signal_run, ?_⟩
  · unfold calculate_position_size
    rw [if_neg (by decide : ¬ demoNormalState.risk_state = RiskState.HALT)]
    rw [if_neg (by norm_num [demoSignal] :
      ¬ demoSignal.risk_per_unit.getD 100 ≤ 0)]
    show pyTrunc ((100000 : ℚ) * (if RiskState.NORMAL = RiskState.NORMAL
        then (2 : ℚ) / 100 else 1 / 100) / 1000) = 2
    rw [if_pos rfl]
    have harg : (100000 : ℚ) * (2 / 100) / 1000 = 2 := by norm_num
    rw [harg]
    unfold pyTrunc
    rw [if_pos (by norm_num)]
    norm_num
  · rw [on_signal_run,
      if_neg (by norm_num [demoNormalState, max_drawdown_limit] :
        ¬ demoNormalState.drawdown_pct > max_drawdown_limit)]


/-- C7 counterexample: a MarketData payload that does include option-chain
data (a single put row at strike 100, which is the nearest row to any
target) on which `BullPutSpreadStrategy.evaluate` still emits its
percentage-proxy strikes 190 and 180 — neither being the chain row's strike
— so the evaluator does not select the chain row nearest its target. -/
theorem c7_counterexample_evaluator_ignores_chain :
    c7Payload.chain = some c7Chain
    ∧ select_nearest (c7Payload.price * (95 / 100)) c7Chain.puts = some ⟨100, 1⟩
    ∧ bull_put_spread_evaluate c7Payload = some
        { id := none
          symbol := some "SPY"
          strategy := some "BULL_PUT_SPREAD"
          side := some "SELL"
          legs := some [⟨"SELL", "PUT", 190⟩, ⟨"BUY", "PUT", 180⟩]
          limit_price := some (3 / 2)
          risk_per_unit := some 850 }
    ∧ (190 : ℚ) ≠ 100
    ∧ (180 : ℚ) ≠ 100 := by
  refine ⟨rfl, rfl, ?_, by norm_num, by norm_num⟩
  unfold bull_put_spread_evaluate
  rw [if_neg (by norm_num [c7Payload] : ¬ c7Payload.iv_rank.getD 0 < 30)]
  norm_num [c7Payload]

/-- C7 amended: `BullPutSpreadStrategy.evaluate` never consults option-chain
data — its output is invariant under any change of the chain in the payload
and, whenever the IV-rank gate passes, is exactly the percentage-proxy
signal (strikes `price·0.95` and `price·0.90`); and no nearest-strike
selection or chain fallback is reachable in the program, because the only
selection code (`StrategyEngine.analyze_market`) references
`StrategyType.CASH_SECURED_PUT`, a member the `StrategyType` enum does not
define — witnessed here by the enum's exhaustiveness over its three actual
members — so that module raises `AttributeError` instead of selecting a row
or producing its simulated fallback. -/
theorem c7_chain_selection_amended :
    (∀ (data : MarketPayload) (chain1 chain2 : Option OptionChain),
      bull_put_spread_evaluate { data with chain := chain1 }
        = bull_put_spread_evaluate { data with chain := chain2 })
    ∧ (∀ data : MarketPayload, ¬ data.iv_rank.getD 0 < 30 →
      bull_put_spread_evaluate data = some
        { id := none
          symbol := data.symbol
          strategy := some "BULL_PUT_SPREAD"
          side := some "SELL"
          legs := some
            [⟨"SELL", "PUT", data.price * (95 / 100)⟩,
             ⟨"BUY", "PUT", data.price * (90 / 100)⟩]
          limit_price := some (3 / 2)
          risk_per_unit :=
            some ((data.price * (95 / 100) - data.price * (90 / 100) - 3 / 2) * 100) })
    ∧ (∀ s : StrategyType,
        s = StrategyType.BULL_PUT_SPREAD ∨ s = StrategyType.BEAR_CALL_SPREAD
          ∨ s = StrategyType.IRON_CONDOR) := by
  refine ⟨fun data c1 c2 => rfl, ?_, ?_⟩
  · intro data h
    unfold bull_put_spread_evaluate
    rw [if_neg h]
  · intro s
    cases s with
    | BULL_PUT_SPREAD => exact Or.inl rfl
    | BEAR_CALL_SPREAD => exact Or.inr (Or.inl rfl)
    | IRON_CONDOR => exact Or.inr (Or.inr rfl)

/-- C7 amended witness: on the concrete chain-carrying payload the IV gate
passes and the proxy signal is emitted, and the evaluator output does not
change between no chain and an empty chain. -/
theorem c7_chain_selection_amended_witness :
    ¬ c7Payload.iv_rank.getD 0 < 30
    ∧ bull_put_spread_evaluate c7Payload = some
        { id := none
          symbol := c7Payload.symbol
          strategy := some "BULL_PUT_SPREAD"
          side := some "SELL"
          legs := some
            [⟨"SELL", "PUT", c7Payload.price * (95 / 100)⟩,
             ⟨"BUY", "PUT", c7Payload.price * (90 / 100)⟩]
          limit_price := some (3 / 2)
          risk_per_unit :=
            some ((c7Payload.price * (95 / 100) - c7Payload.price * (90 / 100) - 3 / 2)
              * 100) }
    ∧ bull_put_spread_evaluate { c7Payload with chain := none }
        = bull_put_spread_evaluate { c7Payload with chain := some c7EmptyChain } :=
  have hiv : ¬ c7Payload.iv_rank.getD 0 < 30 := by norm_num [c7Payload]
  ⟨hiv, c7_chain_selection_amended.2.1 c7Payload hiv,
   c7_chain_selection_amended.1 c7Payload none (some c7EmptyChain)⟩

/-- C8: in simulated (PAPER) mode, one order request produces exactly one
fill event, whose `filled_quantity` is the request's quantity, whose
`fill_price` is the request's limit price, and whose commission is the fixed
per-contract 1.05 times the quantity; concretely, quantity 5 at price 1.50
yields a single fill with `filled_quantity = 5`, `fill_price = 1.50`. -/
theorem c8_paper_execution_single_fill :
    (∀ (τ : Type) (order_id : String) (order_req : OrderReqPayload),
      execute_paper τ order_id order_req
        = [{ order_id := order_id
             signal_id := order_req.signal_id
             symbol := order_req.symbol
             filled_quantity := order_req.quantity
             fill_price := order_req.price
             commission := (105 / 100 : ℚ) * (order_req.quantity : ℚ)
             timestamp := none }])
    ∧ (execute_paper Unit "mock-uuid" demoOrderReq).map
        (fun f => (f.filled_quantity, f.fill_price)) = [(5, some (3 / 2))] :=
  ⟨fun _ _ _ => rfl, rfl⟩

/-- C9: every fill emitted by the paper execution path carries
`timestamp = None` (the `'event' in locals()` guard can never be true inside
`_execute_paper`), so the downstream portfolio updater substitutes the
current clock time for the order's event time. -/
theorem c9_paper_fill_timestamp_always_none :
    ∀ (τ : Type) (order_id : String) (order_req : OrderReqPayload) (now : τ),
      (execute_paper τ order_id order_req).map (fun f => f.timestamp) = [none]
      ∧ (execute_paper τ order_id order_req).map
          (fun f => portfolio_entry_time f.timestamp now) = [now] :=
  fun _ _ _ _ => ⟨rfl, rfl⟩

/-- C10 counterexample: with `risk_per_unit = -5` on the NORMAL demo state
the computed quantity is indeed 0, but the signal is not rejected — the
handler raises `AttributeError` at the `state.daily_pnl` read before the
quantity check, which is a crash, not the logged rejection the claim
describes. -/
theorem c10_counterexample_crash_not_rejection :
    calculate_position_size demoSignalNonposRisk demoNormalState = 0
    ∧ on_signal demoSignalNonposRisk demoNormalState
        = Except.error "AttributeError: daily_pnl"
    ∧ (Except.error "AttributeError: daily_pnl"
        ≠ (Except.ok none : Except String (Option OrderRequestData))) := by
  refine ⟨?_, ?_, by simp⟩
  · unfold calculate_position_size
    rw [if_neg (by decide : ¬ demoNormalState.risk_state = RiskState.HALT)]
    rw [if_pos (by norm_num [demoSignalNonposRisk, demoSignal] :
      demoSignalNonposRisk.risk_per_unit.getD 100 ≤ 0)]
  · rw [on_signal_run,
      if_neg (by norm_num [demoNormalState, max_drawdown_limit] :
        ¬ demoNormalState.drawdown_pct > max_drawdown_limit)]

/-- C10 amended: `_calculate_position_size` sizes a signal lacking the
`risk_per_unit` key with the default risk of 100.0 per contract (the same
quantity as an explicit `risk_per_unit = 100`), and computes quantity 0 for
`risk_per_unit ≤ 0`; but the gate's quantity-based rejection is unreachable
— for every account state passing the drawdown check the handler raises
`AttributeError` at `state.daily_pnl` before sizing, so such signals are
dropped by a crash, not a logged rejection. -/
theorem c10_default_risk_amended :
    (∀ (signal : SignalData) (state : AccountState),
      signal.risk_per_unit = none →
      calculate_position_size signal state
        = calculate_position_size { signal with risk_per_unit := some 100 } state)
    ∧ (∀ (signal : SignalData) (state : AccountState) (rpu : ℚ),
      signal.risk_per_unit = some rpu → rpu ≤ 0 →
      calculate_position_size signal state = 0)
    ∧ (∀ (signal : SignalData) (state : AccountState),
      ¬ state.drawdown_pct > max_drawdown_limit →
      on_signal signal state = Except.error "AttributeError: daily_pnl") := by
  refine ⟨?_, ?_, ?_⟩
  · intro signal state hnone
    unfold calculate_position_size
    rw [hnone]
    rfl
  · intro signal state rpu hsome hnp
    unfold calculate_position_size
    rw [hsome]
    simp only [Option.getD_some]
    split_ifs <;> rfl
  · intro signal state h
    rw [on_signal_run, if_neg h]

/-- C10 amended witness: the key-less signal sizes exactly like the explicit
`risk_per_unit = 100` signal (quantity 20 in the demo NORMAL state), the
`-5` signal is sized 0, and on the drawdown-passing demo state the handler
run ends in the `AttributeError`. -/
theorem c10_default_risk_amended_witness :
    demoSignalNoRisk.risk_per_unit = none
    ∧ calculate_position_size demoSignalNoRisk demoNormalState
        = calculate_position_size demoSignalDefaultRisk demoNormalState
    ∧ calculate_position_size demoSignalNoRisk demoNormalState = 20
    ∧ demoSignalNonposRisk.risk_per_unit = some (-5)
    ∧ (-5 : ℚ) ≤ 0
    ∧ calculate_position_size demoSignalNonposRisk demoNormalState = 0
    ∧ ¬ demoNormalState.drawdown_pct > max_drawdown_limit
    ∧ on_signal demoSignalNoRisk demoNormalState
        = Except.error "AttributeError: daily_pnl" := by
  have h20 : calculate_position_size demoSignalNoRisk demoNormalState = 20 := by
    have harg : (100000 : ℚ) * (2 / 100) / 100 = 20 := by norm_num
    unfold calculate_position_size
    rw [if_neg (by decide : ¬ demoNormalState.risk_state = RiskState.HALT)]
    rw [if_neg (by norm_num [demoSignalNoRisk, demoSignal] :
      ¬ demoSignalNoRisk.risk_per_unit.getD 100 ≤ 0)]
    show pyTrunc ((100000 : ℚ) * (if RiskState.NORMAL = RiskState.NORMAL
        then (2 : ℚ) / 100 else 1 / 100) / 100) = 20
    rw [if_pos rfl, harg]
    unfold pyTrunc
    rw [if_pos (by norm_num)]
    norm_num
  have hdd : ¬ demoNormalState.drawdown_pct > max_drawdown_limit := by
    norm_num [demoNormalState, max_drawdown_limit]
  refine ⟨rfl, ?_, h20, rfl, by norm_num, ?_, hdd, ?_⟩
  · exact c10_default_risk_amended.1 demoSignalNoRisk demoNormalState rfl
  · exact c10_default_risk_amended.2.1 demoSignalNonposRisk demoNormalState
      (-5) rfl (by norm_num)
  · exact c10_default_risk_amended.2.2 demoSignalNoRisk demoNormalState hdd

end Apolo
